import Mathlib

/-!
Shallow embedding of the credential / ephemeral-access-token subsystem of the
attendance application (src/auth.py, src/app.py, src/mainapp.py, src/helpers.py,
src/database.py).

Modelling conventions:
* Timestamps are abstract instants measured in minutes (`Nat`); the calendar
  date of an instant is `dayOf t = t / 1440`.  For the fields the program
  serializes with `isoformat()` in file mode (`created_at`, `last_login`,
  `password_reset_expires`, `expires_at`, ...) both backends compare times with
  the same order (datetime comparison in Mongo mode, lexicographic ISO-8601
  string comparison in file mode), so one totally ordered time type models
  both.  The one exception is `lockout_until`, which src/auth.py stores as a
  raw datetime: the file backend serializes it via `json.dump(..., default=str)`
  as `"YYYY-MM-DD HH:MM:SS"` (space separator) and later compares it against
  `datetime.now().isoformat()` (`"YYYY-MM-DDTHH:MM:SS"`), and since
  `' ' < 'T'` that comparison holds exactly when the lockout's calendar date is
  strictly later than today's.  The Mongo-mode comparison is embedded in
  `lockoutActive`/`authenticate_user`, the file-mode one in
  `lockoutActiveFile`/`authenticate_user_file`.
* Document collections are `List` of records in insertion order; `find_one` is
  `List.find?`, `update_one` updates the first matching record (`updateFirst`).
* The werkzeug password hash (an external library) is modelled by its contract:
  `check_password_hash (generate_password_hash p) q` holds exactly when `q = p`.
* Random token generation is external; tokens appear as ordinary parameters.
-/

namespace StudentApp

/-! ## Data model (src/auth.py user documents) -/

structure UserRec where
  username : String
  password : String
  email : String
  name : String
  role : String
  created_at : Nat
  last_login : Option Nat
  failed_attempts : Nat
  is_locked : Bool
  lockout_until : Option Nat
  status : String
  password_reset_token : Option String
  password_reset_expires : Option Nat
  last_modified : Option Nat
deriving Repr, DecidableEq

/-- Contract of werkzeug `generate_password_hash(p, method='pbkdf2:sha256:600000')`. -/
def generate_password_hash (p : String) : String :=
  "pbkdf2:sha256:600000$" ++ p

/-- Contract of werkzeug `check_password_hash`: succeeds exactly on the hashed password. -/
def check_password_hash (h p : String) : Bool :=
  h == generate_password_hash p

/-! ## Password policy (src/auth.py lines 19, 23-36; identical in src/app.py lines 50-67) -/

/-- Character class `[a-zA-Z0-9._%+-]` of the local part of the email regex. -/
def isEmailLocalChar (c : Char) : Bool :=
  c.isAlpha || c.isDigit || c == '.' || c == '_' || c == '%' || c == '+' || c == '-'

/-- Character class `[a-zA-Z0-9.-]` of the domain part of the email regex. -/
def isDomainChar (c : Char) : Bool :=
  c.isAlpha || c.isDigit || c == '.' || c == '-'

/-- The suffix-check of the domain regex `[a-zA-Z0-9.-]+\.[a-zA-Z]{2,}$`, on the
reversed character list: a trailing run of at least two letters, preceded by a
dot, preceded by at least one more character.  (Any regex split necessarily uses
the last dot of the domain, since the `[a-zA-Z]{2,}` tail admits no dot.) -/
def domainTailOk (rcs : List Char) : Bool :=
  let tld := rcs.takeWhile (fun c => c.isAlpha)
  let rest := rcs.dropWhile (fun c => c.isAlpha)
  decide (2 ≤ tld.length) &&
    (match rest with
     | '.' :: more => !more.isEmpty
     | _ => false)

/-- Split a character list on a separator character, with the same semantics as
`str.split(sep)` restricted to a one-character separator: `n` separators yield
`n+1` (possibly empty) parts. -/
def splitChar (sep : Char) : List Char → List (List Char)
  | [] => [[]]
  | c :: rest =>
    match splitChar sep rest with
    | [] => [[]]
    | part :: parts =>
      if c == sep then [] :: part :: parts else (c :: part) :: parts

/-- `UserManager.validate_email`: full match against
`^[a-zA-Z0-9._%+-]+@[a-zA-Z0-9.-]+\.[a-zA-Z]{2,}$`.  Both character classes
exclude `@`, so a match has exactly one `@`. -/
def validate_email (email : String) : Bool :=
  match splitChar '@' email.data with
  | [lpart, domain] =>
      !lpart.isEmpty && lpart.all isEmailLocalChar &&
      domain.all isDomainChar && domainTailOk domain.reverse
  | _ => false

/-- The special-character class `[@$!%*?&]` of `PASSWORD_REGEX`. -/
def isSpecialChar (c : Char) : Bool :=
  c == '@' || c == '$' || c == '!' || c == '%' || c == '*' || c == '?' || c == '&'

/-- The whole-string class `[A-Za-z\d@$!%*?&]` of `PASSWORD_REGEX`. -/
def isAllowedPwChar (c : Char) : Bool :=
  c.isAlpha || c.isDigit || isSpecialChar c

/-- Full match against `PASSWORD_REGEX =
`^(?=.*[a-z])(?=.*[A-Z])(?=.*\d)(?=.*[@$!%*?&])[A-Za-z\d@$!%*?&]{8,}$`:
four look-aheads plus every character drawn from the allowed class, length ≥ 8. -/
def password_regex_match (p : String) : Bool :=
  p.data.any Char.isLower && p.data.any Char.isUpper && p.data.any Char.isDigit &&
  p.data.any isSpecialChar && p.data.all isAllowedPwChar && decide (8 ≤ p.data.length)

def emptyPasswordMsg : String := "Password cannot be empty"
def tooShortMsg : String := "Password must be at least 8 characters"
def weakPasswordMsg : String :=
  "Password must contain at least one uppercase letter, one lowercase letter, one number, and one special character"

/-- `UserManager.validate_password` (src/auth.py lines 28-36). -/
def validate_password (p : String) : Bool × String :=
  if p.data.isEmpty then (false, emptyPasswordMsg)
  else if p.data.length < 8 then (false, tooShortMsg)
  else if !password_regex_match p then (false, weakPasswordMsg)
  else (true, "")

/-! ## Generic store operations (src/database.py SimpleCol; Mongo behaves the same
on these call shapes) -/

/-- `update_one(filt, {"$set": ...})` with no upsert: rewrite the first matching
record, leave the rest untouched; no-op when nothing matches. -/
def updateFirst {α : Type} (p : α → Bool) (f : α → α) : List α → List α
  | [] => []
  | x :: xs => if p x then f x :: xs else x :: updateFirst p f xs

/-- `users_col.find_one({"username": uname})`. -/
def findUser (users : List UserRec) (uname : String) : Option UserRec :=
  users.find? (fun u => u.username == uname)

/-! ## Account Manager (src/auth.py UserManager) -/

def MAX_LOGIN_ATTEMPTS : Nat := 5
/-- `LOCKOUT_DURATION = timedelta(minutes=30)`, in minutes. -/
def LOCKOUT_DURATION : Nat := 30
/-- Reset tokens live `timedelta(hours=24)`, in minutes. -/
def RESET_TOKEN_LIFETIME : Nat := 1440

/-- Outcome of `authenticate_user`: `(False, message)` cases are the first four
constructors, `(True, profile-dict)` is `profile`. -/
inductive AuthOutcome where
  | userNotFound
  | accountLocked (lockoutUntil : Option Nat)
  | accountInactive
  | invalidPassword
  | profile (username role name email : String)
deriving Repr, DecidableEq

/-- The guard `lockout_until and lockout_until > datetime.now()` of the
`is_locked` branch (`None` is falsy), as executed against the *Mongo* backend,
where `lockout_until` is a raw datetime and the comparison is chronological.
The file backend's comparison of the `str()`-serialized value is
`lockoutActiveFile` below. -/
def lockoutActive (now : Nat) (u : UserRec) : Bool :=
  u.is_locked && (match u.lockout_until with
    | some t => decide (now < t)
    | none => false)

/-- Calendar date of an instant: instants are minutes, a day is 1440 of them. -/
def dayOf (t : Nat) : Nat := t / 1440

/-- The same guard as executed against the *file* backend
(src/auth.py line 81 with the value stored by line 121): the stored
`lockout_until` was serialized by `str(datetime)` — `"YYYY-MM-DD HH:MM:SS"` —
and is compared lexicographically against `datetime.now().isoformat()` —
`"YYYY-MM-DDTHH:MM:SS"`.  Both strings open with the date; on equal dates the
stored value's `' '` sorts below the comparand's `'T'`, so the guard holds
exactly when the lockout's calendar date is strictly later than the current
one. -/
def lockoutActiveFile (now : Nat) (u : UserRec) : Bool :=
  u.is_locked && (match u.lockout_until with
    | some t => decide (dayOf now < dayOf t)
    | none => false)

/-- The `$set` of the stale-lock clearing `update_one`. -/
def clearLockUpdate (u : UserRec) : UserRec :=
  { u with is_locked := false, failed_attempts := 0, lockout_until := none }

/-- The `$set` of the successful-login `update_one`. -/
def loginSuccessUpdate (now : Nat) (u : UserRec) : UserRec :=
  { u with last_login := some now, failed_attempts := 0, lockout_until := none }

/-- The `$set` of the failed-login `update_one`. -/
def loginFailureUpdate (failed : Nat) (locked : Bool) (luntil : Option Nat)
    (u : UserRec) : UserRec :=
  { u with failed_attempts := failed, is_locked := locked, lockout_until := luntil }

/-- `UserManager.authenticate_user` (src/auth.py lines 72-133) as executed
against the Mongo backend (the file backend differs only in the lockout guard;
see `authenticate_user_file`).  Returns the outcome together with the users
collection after the call's `update_one`s.  Note that after the stale-lock
clearing branch the code keeps using the `user` dict read *before* that
update, which this embedding mirrors by branching on the originally found
record throughout. -/
def authenticate_user (users : List UserRec) (now : Nat) (uname : String)
    (password : Option String) : AuthOutcome × List UserRec :=
  match findUser users uname with
  | none => (.userNotFound, users)
  | some user =>
    if lockoutActive now user then
      (.accountLocked user.lockout_until, users)
    else
      let users1 :=
        if user.is_locked then
          updateFirst (fun u => u.username == uname) clearLockUpdate users
        else users
      if user.status != "active" then
        (.accountInactive, users1)
      else
        match password with
        | none =>
          -- session (cookie) check: no credential verification
          (.profile uname user.role user.name user.email, users1)
        | some pw =>
          if check_password_hash user.password pw then
            (.profile uname user.role user.name user.email,
             updateFirst (fun u => u.username == uname) (loginSuccessUpdate now) users1)
          else
            let failed := user.failed_attempts + 1
            let locked := decide (MAX_LOGIN_ATTEMPTS ≤ failed)
            let luntil : Option Nat := if locked then some (now + LOCKOUT_DURATION) else none
            ((if locked then .accountLocked luntil else .invalidPassword),
             updateFirst (fun u => u.username == uname)
               (loginFailureUpdate failed locked luntil) users1)

/-- `UserManager.authenticate_user` (src/auth.py lines 72-133) as executed
against the file backend: identical to `authenticate_user` except that the
lockout guard is the broken string comparison `lockoutActiveFile`, under which
a lockout whose expiry falls on the current calendar date always reads as
stale. -/
def authenticate_user_file (users : List UserRec) (now : Nat) (uname : String)
    (password : Option String) : AuthOutcome × List UserRec :=
  match findUser users uname with
  | none => (.userNotFound, users)
  | some user =>
    if lockoutActiveFile now user then
      (.accountLocked user.lockout_until, users)
    else
      let users1 :=
        if user.is_locked then
          updateFirst (fun u => u.username == uname) clearLockUpdate users
        else users
      if user.status != "active" then
        (.accountInactive, users1)
      else
        match password with
        | none =>
          -- session (cookie) check: no credential verification
          (.profile uname user.role user.name user.email, users1)
        | some pw =>
          if check_password_hash user.password pw then
            (.profile uname user.role user.name user.email,
             updateFirst (fun u => u.username == uname) (loginSuccessUpdate now) users1)
          else
            let failed := user.failed_attempts + 1
            let locked := decide (MAX_LOGIN_ATTEMPTS ≤ failed)
            let luntil : Option Nat := if locked then some (now + LOCKOUT_DURATION) else none
            ((if locked then .accountLocked luntil else .invalidPassword),
             updateFirst (fun u => u.username == uname)
               (loginFailureUpdate failed locked luntil) users1)

/-- `UserManager.create_user` (src/auth.py lines 38-70): validation chain, then
insert with `status="active"` (auto-activate variant). -/
def create_user (users : List UserRec) (now : Nat)
    (uname pw email name role : String) : (Bool × String) × List UserRec :=
  if uname.length < 3 then ((false, "Username must be at least 3 characters"), users)
  else if !validate_email email then ((false, "Invalid email format"), users)
  else if (findUser users uname).isSome then ((false, "Username already exists"), users)
  else if (users.find? (fun u => u.email == email)).isSome then ((false, "Email already exists"), users)
  else
    match validate_password pw with
    | (false, err) => ((false, err), users)
    | (true, _) =>
      ((true, "User created successfully."),
       users ++ [{ username := uname, password := generate_password_hash pw,
                   email := email, name := name, role := role, created_at := now,
                   last_login := none, failed_attempts := 0, is_locked := false,
                   lockout_until := none, status := "active",
                   password_reset_token := none, password_reset_expires := none,
                   last_modified := none }])

/-- `UserManager.create_user` of src/app.py (lines 69-104): identical validation
but inserts with `status="pending"` ("Requires email verification"; the
self-signup flow never verifies). -/
def create_user_app (users : List UserRec) (now : Nat)
    (uname pw email name role : String) : (Bool × String) × List UserRec :=
  if uname.length < 3 then ((false, "Username must be at least 3 characters"), users)
  else if !validate_email email then ((false, "Invalid email format"), users)
  else if (findUser users uname).isSome then ((false, "Username already exists"), users)
  else if (users.find? (fun u => u.email == email)).isSome then ((false, "Email already exists"), users)
  else
    match validate_password pw with
    | (false, err) => ((false, err), users)
    | (true, _) =>
      ((true, "User created successfully. Please check your email for verification."),
       users ++ [{ username := uname, password := generate_password_hash pw,
                   email := email, name := name, role := role, created_at := now,
                   last_login := none, failed_attempts := 0, is_locked := false,
                   lockout_until := none, status := "pending",
                   password_reset_token := none, password_reset_expires := none,
                   last_modified := none }])

/-- `UserManager.authenticate_user` of src/app.py (lines 106-159): the same
lockout / stale-clear / status / credential chain as the src/auth.py version
(message strings differ but are not captured by `AuthOutcome`), except that it
has *no* password-`None` session-check branch — a `None` password would reach
`check_password_hash` and raise — so the password here is a plain string.  The
lockout guard shown is the Mongo-mode one; app.py lines 114-115/147 have the
same file-mode serialization caveat as src/auth.py. -/
def authenticate_user_app (users : List UserRec) (now : Nat) (uname : String)
    (password : String) : AuthOutcome × List UserRec :=
  match findUser users uname with
  | none => (.userNotFound, users)
  | some user =>
    if lockoutActive now user then
      (.accountLocked user.lockout_until, users)
    else
      let users1 :=
        if user.is_locked then
          updateFirst (fun u => u.username == uname) clearLockUpdate users
        else users
      if user.status != "active" then
        (.accountInactive, users1)
      else
        if check_password_hash user.password password then
          (.profile uname user.role user.name user.email,
           updateFirst (fun u => u.username == uname) (loginSuccessUpdate now) users1)
        else
          let failed := user.failed_attempts + 1
          let locked := decide (MAX_LOGIN_ATTEMPTS ≤ failed)
          let luntil : Option Nat := if locked then some (now + LOCKOUT_DURATION) else none
          ((if locked then .accountLocked luntil else .invalidPassword),
           updateFirst (fun u => u.username == uname)
             (loginFailureUpdate failed locked luntil) users1)

/-- Whether an `authenticate_user` outcome is the `(True, ...)` case. -/
def AuthOutcome.isSuccess : AuthOutcome → Bool
  | .profile .. => true
  | _ => false

/-- `UserManager.change_password` (src/auth.py lines 135-157). -/
def change_password (users : List UserRec) (now : Nat) (uname : String)
    (current : Option String) (newpw : String) : (Bool × String) × List UserRec :=
  let r := authenticate_user users now uname current
  if !r.1.isSuccess then ((false, "Current password is incorrect"), r.2)
  else
    match validate_password newpw with
    | (false, err) => ((false, err), r.2)
    | (true, _) =>
      ((true, "Password updated successfully"),
       updateFirst (fun u => u.username == uname)
         (fun u => { u with password := generate_password_hash newpw, last_modified := some now })
         r.2)

/-- `UserManager.generate_reset_token` (src/auth.py lines 159-175); the random
token is a parameter.  `update_one` with no matching user is a no-op. -/
def generate_reset_token (users : List UserRec) (now : Nat)
    (uname token : String) : (Bool × String) × List UserRec :=
  ((true, token),
   updateFirst (fun u => u.username == uname)
     (fun u => { u with password_reset_token := some token,
                        password_reset_expires := some (now + RESET_TOKEN_LIFETIME) })
     users)

/-- The Mongo-mode lookup filter of `reset_password`:
`{"password_reset_token": token, "password_reset_expires": {"$gt": now}}`. -/
def resetQueryMatch (token : String) (now : Nat) (u : UserRec) : Bool :=
  u.password_reset_token == some token &&
  (match u.password_reset_expires with
   | some e => decide (now < e)
   | none => false)

/-- `UserManager.reset_password` in Mongo mode (src/auth.py lines 177-206):
the backing store interprets the `$gt` operator. -/
def reset_password (users : List UserRec) (now : Nat)
    (token newpw : String) : (Bool × String) × List UserRec :=
  match validate_password newpw with
  | (false, err) => ((false, err), users)
  | (true, _) =>
    match users.find? (resetQueryMatch token now) with
    | none => ((false, "Invalid or expired reset token"), users)
    | some _ =>
      ((true, "Password reset successfully"),
       updateFirst (fun u => u.password_reset_token == some token)
         (fun u => { u with password := generate_password_hash newpw,
                            password_reset_token := none,
                            password_reset_expires := none,
                            last_modified := some now })
         users)

/-! File-backed mode of `reset_password`: `SimpleCol.find_one` (src/database.py
lines 70-80) matches every filter entry against the document field with plain
equality, so the `{"$gt": ...}` operator dict is compared *as a value*.  The
small `DVal` type mirrors the JSON values that can meet in that comparison. -/

inductive DVal where
  | s (v : String)
  | t (v : Nat)
  | nullv
  | gtFilter (v : Nat)
deriving Repr, DecidableEq

def resetTokenField (u : UserRec) : DVal :=
  match u.password_reset_token with
  | some x => .s x
  | none => .nullv

def resetExpiresField (u : UserRec) : DVal :=
  match u.password_reset_expires with
  | some x => .t x
  | none => .nullv

/-- What `SimpleCol.find_one` actually tests for the `reset_password` query in
file mode: the stored expiry value would have to *equal* the `$gt` filter dict. -/
def resetQueryMatchFile (token : String) (now : Nat) (u : UserRec) : Bool :=
  resetTokenField u == DVal.s token && resetExpiresField u == DVal.gtFilter now

/-- `UserManager.reset_password` in file-backed mode. -/
def reset_password_file (users : List UserRec) (now : Nat)
    (token newpw : String) : (Bool × String) × List UserRec :=
  match validate_password newpw with
  | (false, err) => ((false, err), users)
  | (true, _) =>
    match users.find? (resetQueryMatchFile token now) with
    | none => ((false, "Invalid or expired reset token"), users)
    | some _ =>
      ((true, "Password reset successfully"),
       updateFirst (fun u => u.password_reset_token == some token)
         (fun u => { u with password := generate_password_hash newpw,
                            password_reset_token := none,
                            password_reset_expires := none,
                            last_modified := some now })
         users)

/-! ## Attendance Ledger Guard (src/helpers.py mark_attendance lines 88-131;
src/app.py lines 540-573 is the same guard without the `created_by` field) -/

structure AttRec where
  student_id : String
  date : String
  time : String
  status : Int
  course : Option String
  method : String
  created_by : String
deriving Repr, DecidableEq

inductive MarkResult where
  | alreadyMarked
  | ok (rec : AttRec)
deriving Repr, DecidableEq

/-- The idempotency-key filter `{"student_id": sid, "date": d}`. -/
def attKeyMatch (sid d : String) (r : AttRec) : Bool :=
  r.student_id == sid && r.date == d

/-- `mark_attendance`: find-then-insert guarded on the `(student_id, date)` key.
The Mongo and file branches of the source run the identical check and build the
identical document (up to the `ts` representation, not modelled). -/
def mark_attendance (att : List AttRec) (sid : String) (status : Int)
    (dateStr timeStr : String) (course : Option String)
    (method createdBy : String) : MarkResult × List AttRec :=
  match att.find? (attKeyMatch sid dateStr) with
  | some _ => (.alreadyMarked, att)
  | none =>
    let doc : AttRec :=
      { student_id := sid, date := dateStr, time := timeStr, status := status,
        course := course, method := method, created_by := createdBy }
    (.ok doc, att ++ [doc])

/-! ## Ephemeral Access Issuer (sessions and personal links) -/

structure SessionRec where
  session_id : String
  course : Option String
  description : String
  created_by : Option String
  created_at : Nat
  expires_at : Nat
  is_active : Bool
  attendance_count : Nat
deriving Repr, DecidableEq

structure LinkRec where
  link_id : String
  student_id : String
  created_by : Option String
  created_at : Nat
  expires_at : Nat
  is_active : Bool
  uses : Nat
  max_uses : Option Nat
deriving Repr, DecidableEq

inductive SessionResolve where
  | notFound
  | expired
  | inactive
  | valid (s : SessionRec)
deriving Repr, DecidableEq

/-- `handle_attendance_session` validity checks (src/app.py lines 979-1001,
src/mainapp.py lines 165-189): lookup, then `expires_at < now` (strict), then
`is_active`. -/
def resolve_session (sessions : List SessionRec) (now : Nat) (sid : String) : SessionResolve :=
  match sessions.find? (fun s => s.session_id == sid) with
  | none => .notFound
  | some s =>
    if s.expires_at < now then .expired
    else if !s.is_active then .inactive
    else .valid s

inductive LinkResolve where
  | notFound
  | expired
  | inactive
  | usageExceeded
  | valid (l : LinkRec)
deriving Repr, DecidableEq

/-- The guard `link.get("max_uses") and link.get("uses", 0) >= link["max_uses"]`:
`None` and `0` are both falsy, so a zero cap is never enforced. -/
def max_uses_reached (l : LinkRec) : Bool :=
  match l.max_uses with
  | some m => decide (m ≠ 0) && decide (m ≤ l.uses)
  | none => false

/-- `handle_student_attendance_link` of src/app.py (lines 1003-1029): lookup,
expiry (strict `<`), active flag, usage cap, in that order. -/
def resolve_link (links : List LinkRec) (now : Nat) (lid : String) : LinkResolve :=
  match links.find? (fun l => l.link_id == lid) with
  | none => .notFound
  | some l =>
    if l.expires_at < now then .expired
    else if !l.is_active then .inactive
    else if max_uses_reached l then .usageExceeded
    else .valid l

inductive LinkResolveMainapp where
  | notFound
  | valid (l : LinkRec)
deriving Repr, DecidableEq

/-- `handle_student_attendance_link` of src/mainapp.py (lines 251-293): only the
existence of the link is checked before the marking form is shown. -/
def resolve_link_mainapp (links : List LinkRec) (lid : String) : LinkResolveMainapp :=
  match links.find? (fun l => l.link_id == lid) with
  | none => .notFound
  | some l => .valid l

/-- The `uses` increment performed after a successful mark through a personal
link (src/app.py lines 1150-1160, both backends). -/
def increment_link_uses (links : List LinkRec) (lid : String) : List LinkRec :=
  updateFirst (fun l => l.link_id == lid) (fun l => { l with uses := l.uses + 1 }) links

/-! ## File-store TTL sweep (src/database.py SimpleCol._load lines 54-64) -/

/-- `_load` on `links.json`: keep only `d.get("expires_at") > now`. -/
def sweepLinks (now : Nat) (links : List LinkRec) : List LinkRec :=
  links.filter (fun l => decide (now < l.expires_at))

/-- `_load` on `sessions.json`: keep only `d.get("expires_at") > now`. -/
def sweepSessions (now : Nat) (sessions : List SessionRec) : List SessionRec :=
  sessions.filter (fun s => decide (now < s.expires_at))

/-- `links_col.find_one({"link_id": lid})` in file mode: the sweep runs inside
`_load` before the filter is applied. -/
def links_find_one_file (links : List LinkRec) (now : Nat) (lid : String) : Option LinkRec :=
  (sweepLinks now links).find? (fun l => l.link_id == lid)

/-- `sessions_col.find_one({"session_id": sid})` in file mode. -/
def sessions_find_one_file (sessions : List SessionRec) (now : Nat) (sid : String) : Option SessionRec :=
  (sweepSessions now sessions).find? (fun s => s.session_id == sid)

/-- src/mainapp.py `handle_student_attendance_link` running against the
file-backed store. -/
def resolve_link_mainapp_file (links : List LinkRec) (now : Nat) (lid : String) : LinkResolveMainapp :=
  resolve_link_mainapp (sweepLinks now links) lid

/-! ## Concrete exhibit records used by the claim theorems -/

/-- A concrete attendance record used by the C1 witness. -/
def c1rec : AttRec :=
  { student_id := "STU001", date := "2026-10-12", time := "09:00:00", status := 1,
    course := some "CS101", method := "manual", created_by := "alice" }

/-- A session whose expiry instant equals the current clock value. -/
def c7sess : SessionRec :=
  { session_id := "SES1", course := none, description := "demo",
    created_by := some "t1", created_at := 0, expires_at := 5,
    is_active := true, attendance_count := 0 }

/-- An expired, already-inactive session used by the C7 witness. -/
def c7sessOld : SessionRec :=
  { session_id := "SES2", course := some "CS101", description := "old",
    created_by := some "t1", created_at := 0, expires_at := 5,
    is_active := false, attendance_count := 3 }

/-- An expired link record used by the C10 witness. -/
def c10link : LinkRec :=
  { link_id := "L10", student_id := "STU002", created_by := some "t1",
    created_at := 0, expires_at := 7, is_active := true, uses := 0,
    max_uses := none }

/-- A link whose expiry instant equals the current clock value. -/
def c2link : LinkRec :=
  { link_id := "L1", student_id := "STU001", created_by := some "t1",
    created_at := 0, expires_at := 5, is_active := true, uses := 0,
    max_uses := none }

/-- A single-use link used by the C2 witness. -/
def c2linkCap : LinkRec :=
  { link_id := "L2", student_id := "STU001", created_by := some "t1",
    created_at := 0, expires_at := 100, is_active := true, uses := 0,
    max_uses := some 1 }

/-- A stored user unrelated to the queried username, for the C9 witness. -/
def c9user : UserRec :=
  { username := "alice", password := generate_password_hash "Abc12345!",
    email := "a@x.com", name := "Alice", role := "teacher", created_at := 0,
    last_login := none, failed_attempts := 0, is_locked := false,
    lockout_until := none, status := "active", password_reset_token := none,
    password_reset_expires := none, last_modified := none }

/-- A user holding an unexpired reset token, for the C4 exhibits. -/
def c4user : UserRec :=
  { username := "bob", password := generate_password_hash "OldPass1!",
    email := "b@x.com", name := "Bob", role := "teacher", created_at := 0,
    last_login := none, failed_attempts := 0, is_locked := false,
    lockout_until := none, status := "active",
    password_reset_token := some "TOK4", password_reset_expires := some 100,
    last_modified := none }

/-- An active user with a known stored hash, for the C6 exhibits. -/
def c6user : UserRec :=
  { username := "carol", password := generate_password_hash "OldPass1!",
    email := "c@x.com", name := "Carol", role := "teacher", created_at := 0,
    last_login := none, failed_attempts := 0, is_locked := false,
    lockout_until := none, status := "active", password_reset_token := none,
    password_reset_expires := none, last_modified := none }

/-- A fresh-but-for-four-failures active account, for the C3 witness. -/
def c3user : UserRec :=
  { username := "dave", password := generate_password_hash "Abc12345!",
    email := "d@x.com", name := "Dave", role := "teacher", created_at := 0,
    last_login := none, failed_attempts := 4, is_locked := false,
    lockout_until := none, status := "active", password_reset_token := none,
    password_reset_expires := none, last_modified := none }

/-- An account locked at minute 100 with `lockout_until = 130`, i.e. a
30-minute lockout window entirely inside calendar day 0, for the C3 file-mode
exhibit. -/
def c3lockedUser : UserRec :=
  { username := "erin", password := generate_password_hash "Abc12345!",
    email := "e@x.com", name := "Erin", role := "teacher", created_at := 0,
    last_login := none, failed_attempts := 5, is_locked := true,
    lockout_until := some 130, status := "active", password_reset_token := none,
    password_reset_expires := none, last_modified := none }

/-! ## Helper lemmas on the store operations -/

theorem updateFirst_of_forall_false {α : Type} (p : α → Bool) (f : α → α)
    (l : List α) (h : ∀ x ∈ l, p x = false) : updateFirst p f l = l := by
  induction l with
  | nil => rfl
  | cons x xs ih =>
    unfold updateFirst
    rw [h x (List.mem_cons_self x xs)]
    simp only [Bool.false_eq_true, if_false, List.cons.injEq, true_and]
    exact ih (fun y hy => h y (List.mem_cons_of_mem x hy))

theorem find?_append_false {α : Type} (p : α → Bool) (pre l : List α)
    (h : ∀ y ∈ pre, p y = false) : (pre ++ l).find? p = l.find? p := by
  induction pre with
  | nil => rfl
  | cons a as ih =>
    simp only [List.cons_append, List.find?_cons, h a (List.mem_cons_self a as)]
    exact ih (fun y hy => h y (List.mem_cons_of_mem a hy))

theorem updateFirst_decomp {α : Type} (p : α → Bool) (f : α → α)
    (l : List α) (x : α) (h : l.find? p = some x) :
    ∃ pre post, l = pre ++ x :: post ∧ (∀ y ∈ pre, p y = false) ∧
      updateFirst p f l = pre ++ f x :: post := by
  induction l with
  | nil => simp [List.find?] at h
  | cons a as ih =>
    by_cases hp : p a = true
    · simp only [List.find?_cons, hp] at h
      have hax : a = x := by injection h
      subst hax
      refine ⟨[], as, rfl, by intro y hy; simp at hy, ?_⟩
      unfold updateFirst
      simp [hp]
    · have hp' : p a = false := Bool.eq_false_iff.mpr hp
      simp only [List.find?_cons, hp'] at h
      obtain ⟨pre, post, hdec, hpre, hupd⟩ := ih h
      refine ⟨a :: pre, post, by simp [hdec], ?_, ?_⟩
      · intro y hy
        rcases List.mem_cons.mp hy with rfl | hy'
        · exact hp'
        · exact hpre y hy'
      · unfold updateFirst
        simp [hp', hupd]

theorem updateFirst_append_cons {α : Type} (p : α → Bool) (f : α → α)
    (pre post : List α) (x : α)
    (hpre : ∀ y ∈ pre, p y = false) (hx : p x = true) :
    updateFirst p f (pre ++ x :: post) = pre ++ f x :: post := by
  induction pre with
  | nil =>
    unfold updateFirst
    simp [hx]
  | cons a as ih =>
    unfold updateFirst
    simp only [List.cons_append, hpre a (List.mem_cons_self a as), Bool.false_eq_true, if_false]
    rw [ih (fun y hy => hpre y (List.mem_cons_of_mem a hy))]

theorem find?_updateFirst_same {α : Type} (p : α → Bool) (f : α → α)
    (l : List α) (x : α) (h : l.find? p = some x) (hf : p (f x) = true) :
    (updateFirst p f l).find? p = some (f x) := by
  obtain ⟨pre, post, _, hpre, hupd⟩ := updateFirst_decomp p f l x h
  rw [hupd, find?_append_false p pre _ hpre]
  simp [List.find?_cons, hf]

/-- Updating with a field-preserving function does not change what a `find?` by
username reports about the password field. -/
theorem find?_updateFirst_password (p : UserRec → Bool) (f : UserRec → UserRec)
    (users : List UserRec) (n : String)
    (hf : ∀ x : UserRec, (f x).username = x.username ∧ (f x).password = x.password) :
    ((updateFirst p f users).find? (fun u => u.username == n)).map (fun u => u.password)
      = (users.find? (fun u => u.username == n)).map (fun u => u.password) := by
  induction users with
  | nil => rfl
  | cons x xs ih =>
    unfold updateFirst
    by_cases hp : p x = true
    · simp only [hp, if_true, List.find?_cons, (hf x).1]
      by_cases hn : (x.username == n) = true
      · simp [hn, (hf x).2]
      · simp [hn]
    · have hp' : p x = false := Bool.eq_false_iff.mpr hp
      simp only [hp', Bool.false_eq_true, if_false, List.find?_cons]
      by_cases hn : (x.username == n) = true
      · simp [hn]
      · simp [hn, ih]

/-- `authenticate_user` never changes any stored password hash. -/
theorem authenticate_user_preserves_password (users : List UserRec) (now : Nat)
    (uname : String) (password : Option String) (n : String) :
    ((authenticate_user users now uname password).2.find?
        (fun u => u.username == n)).map (fun u => u.password)
      = (users.find? (fun u => u.username == n)).map (fun u => u.password) := by
  have hgen : ∀ (f : UserRec → UserRec),
      (∀ x : UserRec, (f x).username = x.username ∧ (f x).password = x.password) →
      ∀ l : List UserRec,
        ((updateFirst (fun u => u.username == uname) f l).find?
            (fun u => u.username == n)).map (fun u => u.password)
          = (l.find? (fun u => u.username == n)).map (fun u => u.password) :=
    fun f hf l => find?_updateFirst_password _ f l n hf
  unfold authenticate_user
  cases hfind : findUser users uname with
  | none => rfl
  | some user =>
    by_cases hlock : lockoutActive now user = true
    · simp [hlock]
    · have hlock' : lockoutActive now user = false := Bool.eq_false_iff.mpr hlock
      simp only [hlock', Bool.false_eq_true, if_false]
      have h1 : ∀ hl : Bool, hl = user.is_locked →
          (((if hl then
              updateFirst (fun u => u.username == uname) clearLockUpdate users
             else users).find? (fun u => u.username == n)).map (fun u => u.password))
            = ((users.find? (fun u => u.username == n)).map (fun u => u.password)) := by
        intro hl _
        cases hl with
        | true => exact hgen clearLockUpdate (fun x => ⟨rfl, rfl⟩) users
        | false => rfl
      by_cases hst : (user.status != "active") = true
      · simpa [hst] using h1 user.is_locked rfl
      · have hst' : (user.status != "active") = false := Bool.eq_false_iff.mpr hst
        simp only [hst', Bool.false_eq_true, if_false]
        cases password with
        | none => simpa using h1 user.is_locked rfl
        | some pw =>
          by_cases hck : check_password_hash user.password pw = true
          · simp only [hck, if_true]
            exact (hgen (loginSuccessUpdate now) (fun x => ⟨rfl, rfl⟩) _).trans
              (h1 user.is_locked rfl)
          · have hck' : check_password_hash user.password pw = false := Bool.eq_false_iff.mpr hck
            simp only [hck', Bool.false_eq_true, if_false]
            exact (hgen (loginFailureUpdate (user.failed_attempts + 1)
                (decide (MAX_LOGIN_ATTEMPTS ≤ user.failed_attempts + 1))
                (if decide (MAX_LOGIN_ATTEMPTS ≤ user.failed_attempts + 1) = true
                 then some (now + LOCKOUT_DURATION) else none))
              (fun x => ⟨rfl, rfl⟩) _).trans (h1 user.is_locked rfl)

/-! ## Claim C1: mark_attendance is idempotent on the (student_id, date) key -/

/-- Claim C1: `mark_attendance` is idempotent on the key `(studentId, date)`: for every
store state, if a record with that `(student_id, date)` pair already exists the
call returns `AlreadyMarked` and leaves the attendance collection unchanged; if
none exists it inserts exactly one record with that pair; hence sequential runs
maintain at most one record per key. -/
theorem mark_attendance_idempotency_key
    (att : List AttRec) (sid : String) (status : Int) (dateStr timeStr : String)
    (course : Option String) (method createdBy : String) :
    ((att.find? (attKeyMatch sid dateStr)).isSome = true →
       (mark_attendance att sid status dateStr timeStr course method createdBy).1
           = .alreadyMarked ∧
       (mark_attendance att sid status dateStr timeStr course method createdBy).2 = att) ∧
    (att.find? (attKeyMatch sid dateStr) = none →
       ∃ doc,
         (mark_attendance att sid status dateStr timeStr course method createdBy).1 = .ok doc ∧
         attKeyMatch sid dateStr doc = true ∧
         (mark_attendance att sid status dateStr timeStr course method createdBy).2
             = att ++ [doc] ∧
         ((mark_attendance att sid status dateStr timeStr course method createdBy).2.filter
             (attKeyMatch sid dateStr)).length = 1) ∧
    ((att.filter (attKeyMatch sid dateStr)).length ≤ 1 →
       ((mark_attendance att sid status dateStr timeStr course method createdBy).2.filter
           (attKeyMatch sid dateStr)).length ≤ 1) := by
  cases hf : att.find? (attKeyMatch sid dateStr) with
  | some r =>
    refine ⟨fun _ => ?_, fun hnone => by simp [hf] at hnone, fun hle => ?_⟩
    · constructor <;> simp [mark_attendance, hf]
    · have : (mark_attendance att sid status dateStr timeStr course method createdBy).2
          = att := by simp [mark_attendance, hf]
      rw [this]; exact hle
  | none =>
    have hnil : att.filter (attKeyMatch sid dateStr) = [] :=
      List.filter_eq_nil_iff.mpr (fun x hx => by
        have := List.find?_eq_none.mp hf x hx
        simpa using this)
    have hkey : attKeyMatch sid dateStr
        { student_id := sid, date := dateStr, time := timeStr, status := status,
          course := course, method := method, created_by := createdBy } = true := by
      simp [attKeyMatch]
    refine ⟨fun hsome => by simp [hf] at hsome, fun _ => ?_, fun _ => ?_⟩
    · refine ⟨_, by simp [mark_attendance, hf], hkey, by simp [mark_attendance, hf], ?_⟩
      have hst : (mark_attendance att sid status dateStr timeStr course method createdBy).2
          = att ++ [{ student_id := sid, date := dateStr, time := timeStr, status := status,
                      course := course, method := method, created_by := createdBy }] := by
        simp [mark_attendance, hf]
      rw [hst, List.filter_append, hnil]
      simp [hkey]
    · have hst : (mark_attendance att sid status dateStr timeStr course method createdBy).2
          = att ++ [{ student_id := sid, date := dateStr, time := timeStr, status := status,
                      course := course, method := method, created_by := createdBy }] := by
        simp [mark_attendance, hf]
      rw [hst, List.filter_append, hnil]
      simp [hkey]

theorem mark_attendance_idempotency_key_witness :
    (mark_attendance [c1rec] "STU001" 1 "2026-10-12" "09:30:00" (some "CS101")
        "manual" "alice").1 = .alreadyMarked ∧
    (mark_attendance [c1rec] "STU001" 1 "2026-10-12" "09:30:00" (some "CS101")
        "manual" "alice").2 = [c1rec] :=
  (mark_attendance_idempotency_key [c1rec] "STU001" 1 "2026-10-12" "09:30:00"
    (some "CS101") "manual" "alice").1 (by decide)

/-! ## Claim C7: expired session tokens -/

/-- Claim C7 counterexample: the claim demands `Expired` whenever `expiresAt <= now`,
but the code compares with strict `<`, so a session resolved exactly at its
expiry instant is still treated as valid. -/
theorem resolve_session_boundary_counterexample :
    c7sess.expires_at ≤ 5 ∧
    resolve_session [c7sess] 5 "SES1" = .valid c7sess ∧
    resolve_session [c7sess] 5 "SES1" ≠ .expired := by decide

/-- Claim C7 amended: a session resolved strictly after its `expiresAt`
(`expiresAt < now`) always yields `Expired`, regardless of `isActive`, as long
as the record is still physically present; a record the TTL sweep has removed
resolves as `NotFound`; in file-backed mode the sweep runs on every load, so a
session whose every record with that id has `expiresAt <= now` resolves as
`NotFound` there. -/
theorem resolve_session_expiry_amended
    (sessions : List SessionRec) (now : Nat) (sid : String) :
    (∀ s, sessions.find? (fun x => x.session_id == sid) = some s →
        s.expires_at < now → resolve_session sessions now sid = .expired) ∧
    (sessions.find? (fun x => x.session_id == sid) = none →
        resolve_session sessions now sid = .notFound) ∧
    ((∀ s ∈ sessions, s.session_id = sid → s.expires_at ≤ now) →
        resolve_session (sweepSessions now sessions) now sid = .notFound) := by
  refine ⟨?_, ?_, ?_⟩
  · intro s hs hlt
    simp [resolve_session, hs, hlt]
  · intro h
    simp [resolve_session, h]
  · intro h
    have hnone : (sweepSessions now sessions).find? (fun x => x.session_id == sid) = none := by
      rw [List.find?_eq_none]
      intro x hx
      obtain ⟨hmem, hkeep⟩ := List.mem_filter.mp hx
      intro hid
      have hle := h x hmem (by simpa using hid)
      exact absurd (of_decide_eq_true hkeep) (Nat.not_lt.mpr hle)
    simp [resolve_session, hnone]

theorem resolve_session_expiry_amended_witness :
    resolve_session [c7sessOld] 10 "SES2" = .expired :=
  (resolve_session_expiry_amended [c7sessOld] 10 "SES2").1 c7sessOld
    (by decide) (by decide)

/-! ## Claim C10: file-store loads sweep expired session/link records -/

/-- Claim C10: in the file-backed store every load of the sessions or links collection
first deletes all records whose `expires_at` is not strictly greater than the
current time, so `find`/`find_one` on those collections never return an expired
record; consequently an expired personal link resolves as `NotFound` in
src/mainapp.py's handler even though that path performs no expiry comparison. -/
theorem simplecol_ttl_sweep
    (links : List LinkRec) (sessions : List SessionRec) (now : Nat)
    (lid sid : String) :
    (∀ l ∈ sweepLinks now links, now < l.expires_at) ∧
    (∀ s ∈ sweepSessions now sessions, now < s.expires_at) ∧
    (∀ l, links_find_one_file links now lid = some l → now < l.expires_at) ∧
    (∀ s, sessions_find_one_file sessions now sid = some s → now < s.expires_at) ∧
    ((∀ l ∈ links, l.link_id = lid → l.expires_at ≤ now) →
        resolve_link_mainapp_file links now lid = .notFound) := by
  refine ⟨?_, ?_, ?_, ?_, ?_⟩
  · intro l hl
    exact of_decide_eq_true (List.mem_filter.mp hl).2
  · intro s hs
    exact of_decide_eq_true (List.mem_filter.mp hs).2
  · intro l hl
    have hmem := List.mem_of_find?_eq_some hl
    exact of_decide_eq_true (List.mem_filter.mp hmem).2
  · intro s hs
    have hmem := List.mem_of_find?_eq_some hs
    exact of_decide_eq_true (List.mem_filter.mp hmem).2
  · intro h
    have hnone : (sweepLinks now links).find? (fun l => l.link_id == lid) = none := by
      rw [List.find?_eq_none]
      intro x hx
      obtain ⟨hmem, hkeep⟩ := List.mem_filter.mp hx
      intro hid
      have hle := h x hmem (by simpa using hid)
      exact absurd (of_decide_eq_true hkeep) (Nat.not_lt.mpr hle)
    simp [resolve_link_mainapp_file, resolve_link_mainapp, hnone]

theorem simplecol_ttl_sweep_witness :
    resolve_link_mainapp_file [c10link] 7 "L10" = .notFound :=
  (simplecol_ttl_sweep [c10link] [] 7 "L10" "SESX").2.2.2.2 (by decide)

/-! ## Claim C2: personal-link rejection conditions -/

/-- Claim C2 counterexample: the claim demands `Expired` whenever `expiresAt <= now`,
but src/app.py compares with strict `<`, so a link resolved exactly at its
expiry instant is still granted. -/
theorem resolve_link_claim_counterexample :
    c2link.expires_at ≤ 5 ∧
    resolve_link [c2link] 5 "L1" = .valid c2link ∧
    resolve_link [c2link] 5 "L1" ≠ .expired := by decide

/-- Claim C2 amended: src/app.py's `handle_student_attendance_link` rejects in order
`NotFound` (no record), `Expired` (`expiresAt < now`, strict), `Inactive`
(`isActive` false), `UsageExceeded` (`maxUses` set and non-zero and
`uses >= maxUses`), and otherwise grants; a link with `maxUses = 1` resolves
valid once and, after the post-mark `uses` increment, resolves `UsageExceeded`.
src/mainapp.py's handler of the same URL parameter checks only existence. -/
theorem resolve_link_checks_amended
    (links : List LinkRec) (now : Nat) (lid : String) :
    (links.find? (fun l => l.link_id == lid) = none →
        resolve_link links now lid = .notFound) ∧
    (∀ l, links.find? (fun l => l.link_id == lid) = some l →
      (l.expires_at < now → resolve_link links now lid = .expired) ∧
      (¬ l.expires_at < now → l.is_active = false →
          resolve_link links now lid = .inactive) ∧
      (¬ l.expires_at < now → l.is_active = true → max_uses_reached l = true →
          resolve_link links now lid = .usageExceeded) ∧
      (¬ l.expires_at < now → l.is_active = true → max_uses_reached l = false →
          resolve_link links now lid = .valid l)) ∧
    (∀ l, links.find? (fun l => l.link_id == lid) = some l →
      l.max_uses = some 1 → l.uses = 0 → l.is_active = true → ¬ l.expires_at < now →
      resolve_link links now lid = .valid l ∧
      resolve_link (increment_link_uses links lid) now lid = .usageExceeded) ∧
    (∀ l, links.find? (fun l => l.link_id == lid) = some l →
        resolve_link_mainapp links lid = .valid l) := by
  refine ⟨?_, ?_, ?_, ?_⟩
  · intro h
    simp [resolve_link, h]
  · intro l hl
    refine ⟨?_, ?_, ?_, ?_⟩
    · intro hexp
      simp [resolve_link, hl, hexp]
    · intro hexp hact
      simp [resolve_link, hl, hexp, hact]
    · intro hexp hact hcap
      simp [resolve_link, hl, hexp, hact, hcap]
    · intro hexp hact hcap
      simp [resolve_link, hl, hexp, hact, hcap]
  · intro l hl hmax huses hact hexp
    have hcap : max_uses_reached l = false := by
      simp [max_uses_reached, hmax, huses]
    refine ⟨by simp [resolve_link, hl, hexp, hact, hcap], ?_⟩
    have hupd : (increment_link_uses links lid).find? (fun l => l.link_id == lid)
        = some { l with uses := l.uses + 1 } := by
      have hp : (fun x : LinkRec => x.link_id == lid) { l with uses := l.uses + 1 } = true := by
        simpa using List.find?_some hl
      exact find?_updateFirst_same (fun x => x.link_id == lid)
        (fun x => { x with uses := x.uses + 1 }) links l hl hp
    have hcap2 : max_uses_reached { l with is_active := true, uses := l.uses + 1 } = true := by
      simp [max_uses_reached, hmax, huses]
    simp [resolve_link, hupd, hexp, hact, hcap2]
  · intro l hl
    simp [resolve_link_mainapp, hl]

theorem resolve_link_checks_amended_witness :
    resolve_link [c2linkCap] 10 "L2" = .valid c2linkCap ∧
    resolve_link (increment_link_uses [c2linkCap] "L2") 10 "L2" = .usageExceeded :=
  (resolve_link_checks_amended [c2linkCap] 10 "L2").2.2.1 c2linkCap
    (by decide) (by decide) (by decide) (by decide) (by decide)

/-! ## Claim C8: validate_password rules -/

/-- Claim C8 counterexample: `"Aa1@aaa#"` has length 8 and contains a lowercase
letter, an uppercase letter, a digit and a symbol from the fixed set, yet
`validate_password` rejects it: the regex also demands that *every* character
be drawn from `[A-Za-z\d@$!%*?&]`, and `#` is not. -/
theorem validate_password_claim_counterexample :
    8 ≤ "Aa1@aaa#".data.length ∧
    "Aa1@aaa#".data.any Char.isLower = true ∧
    "Aa1@aaa#".data.any Char.isUpper = true ∧
    "Aa1@aaa#".data.any Char.isDigit = true ∧
    "Aa1@aaa#".data.any isSpecialChar = true ∧
    (validate_password "Aa1@aaa#").1 = false := by decide

/-- Claim C8 amended: `validate_password` returns false with the empty-password
reason for the empty string; false with the too-short reason for every
non-empty string shorter than 8 characters; false with the weak-password
reason for every string of length ≥ 8 failing the composed regex; and true for
every string of length ≥ 8 that contains at least one lowercase letter, one
uppercase letter, one digit, one symbol from the fixed set, *and consists only
of characters from the regex alphabet* (letters, digits, `@$!%*?&`).  Checks
run in that order, the first failing check's reason being returned. -/
theorem validate_password_rules_amended :
    (validate_password "" = (false, emptyPasswordMsg)) ∧
    (∀ p : String, p.data ≠ [] → p.data.length < 8 →
        validate_password p = (false, tooShortMsg)) ∧
    (∀ p : String, 8 ≤ p.data.length → password_regex_match p = false →
        validate_password p = (false, weakPasswordMsg)) ∧
    (∀ p : String, 8 ≤ p.data.length →
        p.data.any Char.isLower = true → p.data.any Char.isUpper = true →
        p.data.any Char.isDigit = true → p.data.any isSpecialChar = true →
        p.data.all isAllowedPwChar = true →
        validate_password p = (true, "")) := by
  refine ⟨by decide, ?_, ?_, ?_⟩
  · intro p hne hlen
    have hemp : p.data.isEmpty = false := by
      cases hd : p.data with
      | nil => exact absurd hd hne
      | cons a as => rfl
    have hlen' : p.length < 8 := by simpa using hlen
    simp [validate_password, hemp, hlen']
  · intro p hlen hregex
    have hne : p.data ≠ [] := by
      intro hd
      rw [hd] at hlen
      exact absurd hlen (by decide)
    have hemp : p.data.isEmpty = false := by
      cases hd : p.data with
      | nil => exact absurd hd hne
      | cons a as => rfl
    have hlen' : 8 ≤ p.length := by simpa using hlen
    simp [validate_password, hemp, Nat.not_lt.mpr hlen', hregex]
  · intro p hlen hlow hup hdig hspec hall
    have hne : p.data ≠ [] := by
      intro hd
      rw [hd] at hlen
      exact absurd hlen (by decide)
    have hemp : p.data.isEmpty = false := by
      cases hd : p.data with
      | nil => exact absurd hd hne
      | cons a as => rfl
    have hlen' : 8 ≤ p.length := by simpa using hlen
    have hregex : password_regex_match p = true := by
      simp [password_regex_match, hlow, hup, hdig, hspec, hall, hlen']
    simp [validate_password, hemp, Nat.not_lt.mpr hlen', hregex]

theorem validate_password_rules_amended_witness :
    validate_password "Abc12345!" = (true, "") :=
  validate_password_rules_amended.2.2.2 "Abc12345!" (by decide) (by decide)
    (by decide) (by decide) (by decide) (by decide)

/-! ## Claim C9: generate_reset_token for an unknown username -/

/-- Claim C9: `generate_reset_token` for a username with no matching user record still
returns success with the freshly generated token, but `update_one` matches zero
documents, so the users collection is unchanged, the token is stored nowhere,
and any subsequent `reset_password` with it fails (with either the policy error
or the invalid-token error) without touching the store. -/
theorem generate_reset_token_unknown_user
    (users : List UserRec) (now now2 : Nat) (uname token : String)
    (hno : ∀ u ∈ users, u.username ≠ uname)
    (hfresh : ∀ u ∈ users, u.password_reset_token ≠ some token) :
    (generate_reset_token users now uname token).1 = (true, token) ∧
    (generate_reset_token users now uname token).2 = users ∧
    (∀ newpw, ((reset_password users now2 token newpw).1).1 = false ∧
        (reset_password users now2 token newpw).2 = users) := by
  refine ⟨rfl, ?_, ?_⟩
  · unfold generate_reset_token
    exact updateFirst_of_forall_false _ _ users
      (fun x hx => beq_eq_false_iff_ne.mpr (hno x hx))
  · intro newpw
    have hnone : users.find? (resetQueryMatch token now2) = none := by
      rw [List.find?_eq_none]
      intro x hx
      simp only [resetQueryMatch, Bool.and_eq_true, beq_iff_eq]
      rintro ⟨h1, -⟩
      exact hfresh x hx h1
    cases hv : validate_password newpw with
    | mk b s =>
      cases b with
      | false => constructor <;> simp [reset_password, hv]
      | true => constructor <;> simp [reset_password, hv, hnone]

theorem generate_reset_token_unknown_user_witness :
    (generate_reset_token [c9user] 0 "zed" "TOKEN9").1 = (true, "TOKEN9") ∧
    (generate_reset_token [c9user] 0 "zed" "TOKEN9").2 = [c9user] ∧
    (∀ newpw, ((reset_password [c9user] 5 "TOKEN9" newpw).1).1 = false ∧
        (reset_password [c9user] 5 "TOKEN9" newpw).2 = [c9user]) :=
  generate_reset_token_unknown_user [c9user] 0 5 "zed" "TOKEN9"
    (by decide) (by decide)

/-! ## Claim C4: reset_password token/expiry check -/

/-- Claim C4, Mongo mode: with a policy-valid new password and tokens unique across
records, `reset_password` fails with the invalid-or-expired message exactly
when no user record holds the token with an unexpired `password_reset_expires`
(in particular whenever every holder's expiry has passed); when an unexpired
match exists it succeeds, stores the new hash, clears both reset fields
(single use), and leaves all other records in place. -/
theorem reset_password_token_check
    (users : List UserRec) (now : Nat) (token newpw : String)
    (hpw : (validate_password newpw).1 = true)
    (huniq : (users.filter (fun v => v.password_reset_token == some token)).length ≤ 1) :
    (users.find? (resetQueryMatch token now) = none →
        reset_password users now token newpw
          = ((false, "Invalid or expired reset token"), users)) ∧
    ((∀ u ∈ users, u.password_reset_token = some token →
        ∀ e, u.password_reset_expires = some e → e ≤ now) →
        reset_password users now token newpw
          = ((false, "Invalid or expired reset token"), users)) ∧
    (∀ u, users.find? (resetQueryMatch token now) = some u →
        (reset_password users now token newpw).1 = (true, "Password reset successfully") ∧
        ({ u with password := generate_password_hash newpw,
                  password_reset_token := none, password_reset_expires := none,
                  last_modified := some now }
            ∈ (reset_password users now token newpw).2) ∧
        (∀ v ∈ (reset_password users now token newpw).2,
            v.password_reset_token ≠ some token) ∧
        (∀ v ∈ users, v.password_reset_token ≠ some token →
            v ∈ (reset_password users now token newpw).2)) := by
  cases hval : validate_password newpw with
  | mk b s =>
    have hb : b = true := by rw [hval] at hpw; exact hpw
    subst hb
    refine ⟨?_, ?_, ?_⟩
    · intro h
      simp [reset_password, hval, h]
    · intro h
      have hnone : users.find? (resetQueryMatch token now) = none := by
        rw [List.find?_eq_none]
        intro x hx
        simp only [resetQueryMatch, Bool.and_eq_true, beq_iff_eq]
        rintro ⟨h1, h2⟩
        cases he : x.password_reset_expires with
        | none => rw [he] at h2; exact absurd h2 (by simp)
        | some e =>
          rw [he] at h2
          exact absurd (of_decide_eq_true h2) (Nat.not_lt.mpr (h x hx h1 e he))
      simp [reset_password, hval, hnone]
    · intro u hfind
      have hq : resetQueryMatch token now u = true := List.find?_some hfind
      have htokbeq : (u.password_reset_token == some token) = true := by
        have h' := hq
        simp only [resetQueryMatch, Bool.and_eq_true] at h'
        exact h'.1
      have htok : u.password_reset_token = some token := beq_iff_eq.mp htokbeq
      obtain ⟨pre, post, hdec, -, -⟩ :=
        updateFirst_decomp (resetQueryMatch token now) id users u hfind
      have hsplit : (pre.filter (fun v => v.password_reset_token == some token)).length = 0 ∧
          (post.filter (fun v => v.password_reset_token == some token)).length = 0 := by
        rw [hdec, List.filter_append, List.length_append] at huniq
        have hkeep : ((u :: post).filter
            (fun v => v.password_reset_token == some token)).length
            = (post.filter (fun v => v.password_reset_token == some token)).length + 1 := by
          simp [List.filter_cons, htokbeq]
        rw [hkeep] at huniq
        omega
      have hprefalse : ∀ y ∈ pre, (fun v : UserRec => v.password_reset_token == some token) y = false := by
        intro y hy
        have := List.filter_eq_nil_iff.mp (List.length_eq_zero.mp hsplit.1) y hy
        exact Bool.eq_false_iff.mpr this
      have hpostfalse : ∀ y ∈ post, (y.password_reset_token == some token) = false := by
        intro y hy
        have := List.filter_eq_nil_iff.mp (List.length_eq_zero.mp hsplit.2) y hy
        exact Bool.eq_false_iff.mpr this
      have hstate : (reset_password users now token newpw).2
          = pre ++ { u with password := generate_password_hash newpw,
                            password_reset_token := none, password_reset_expires := none,
                            last_modified := some now } :: post := by
        have h2 : (reset_password users now token newpw).2
            = updateFirst (fun v => v.password_reset_token == some token)
                (fun v => { v with password := generate_password_hash newpw,
                                   password_reset_token := none, password_reset_expires := none,
                                   last_modified := some now }) users := by
          simp [reset_password, hval, hfind]
        rw [h2, hdec]
        exact updateFirst_append_cons _ _ pre post u hprefalse htokbeq
      refine ⟨by simp [reset_password, hval, hfind], ?_, ?_, ?_⟩
      · rw [hstate]
        exact List.mem_append_right _ (List.mem_cons_self _ _)
      · intro v hv
        rw [hstate] at hv
        rcases List.mem_append.mp hv with hvpre | hvrest
        · exact beq_eq_false_iff_ne.mp (hprefalse v hvpre)
        · rcases List.mem_cons.mp hvrest with rfl | hvpost
          · simp
          · exact beq_eq_false_iff_ne.mp (hpostfalse v hvpost)
      · intro v hv hvne
        rw [hdec] at hv
        rw [hstate]
        rcases List.mem_append.mp hv with hvpre | hvrest
        · exact List.mem_append_left _ hvpre
        · rcases List.mem_cons.mp hvrest with rfl | hvpost
          · exact absurd htok hvne
          · exact List.mem_append_right _ (List.mem_cons_of_mem _ hvpost)

theorem reset_password_token_check_witness :
    ((reset_password [c4user] 0 "TOK4" "NewPass1!").1 = (true, "Password reset successfully")) ∧
    ({ c4user with password := generate_password_hash "NewPass1!",
                   password_reset_token := none, password_reset_expires := none,
                   last_modified := some 0 }
        ∈ (reset_password [c4user] 0 "TOK4" "NewPass1!").2) :=
  ⟨((reset_password_token_check [c4user] 0 "TOK4" "NewPass1!" (by decide)
      (by decide)).2.2 c4user (by decide)).1,
   ((reset_password_token_check [c4user] 0 "TOK4" "NewPass1!" (by decide)
      (by decide)).2.2 c4user (by decide)).2.1⟩

/-- Claim C4 code-bug exhibit: the very same store state and call that succeed under
the Mongo backend always fail under the file backend, because
`SimpleCol.find_one` compares the `{"$gt": ...}` operator dict by plain
equality and therefore never matches any stored expiry value. -/
theorem reset_password_file_divergence :
    (validate_password "NewPass1!").1 = true ∧
    resetQueryMatch "TOK4" 0 c4user = true ∧
    ((reset_password [c4user] 0 "TOK4" "NewPass1!").1).1 = true ∧
    reset_password_file [c4user] 0 "TOK4" "NewPass1!"
      = ((false, "Invalid or expired reset token"), [c4user]) := by decide

/-! ## Claim C5: signup round-trip -/

/-- Claim C5, src/auth.py variant: for every tuple passing all `create_user`
validations against an empty store, `create_user` succeeds and a subsequent
`authenticate_user` with the same username and password succeeds, returning the
profile with the stored username, role, name and email. -/
theorem create_then_authenticate_roundtrip
    (now now2 : Nat) (uname pw email nm : String)
    (hname : 3 ≤ uname.length)
    (hemail : validate_email email = true)
    (hpw : (validate_password pw).1 = true) :
    (create_user [] now uname pw email nm "teacher").1
        = (true, "User created successfully.") ∧
    (authenticate_user (create_user [] now uname pw email nm "teacher").2
        now2 uname (some pw)).1 = .profile uname "teacher" nm email := by
  cases hval : validate_password pw with
  | mk b s =>
    have hb : b = true := by rw [hval] at hpw; exact hpw
    subst hb
    have hlt : ¬ uname.length < 3 := Nat.not_lt.mpr hname
    have hcreate : create_user [] now uname pw email nm "teacher"
        = ((true, "User created successfully."),
           [{ username := uname, password := generate_password_hash pw,
              email := email, name := nm, role := "teacher", created_at := now,
              last_login := none, failed_attempts := 0, is_locked := false,
              lockout_until := none, status := "active",
              password_reset_token := none, password_reset_expires := none,
              last_modified := none }]) := by
      simp [create_user, hlt, hemail, hval, findUser]
    refine ⟨by rw [hcreate], ?_⟩
    rw [hcreate]
    simp [authenticate_user, findUser, lockoutActive, check_password_hash,
      List.find?_cons]

/-- Claim C5 code-bug exhibit: the self-signup variant in src/app.py stores
`status="pending"` and no code path ever verifies the account, so the very next
login with the correct password is rejected as inactive. -/
theorem create_user_app_pending_blocks_login :
    (create_user_app [] 0 "alice" "Abc12345!" "a@x.com" "Alice" "teacher").1
      = (true, "User created successfully. Please check your email for verification.") ∧
    (authenticate_user_app
        (create_user_app [] 0 "alice" "Abc12345!" "a@x.com" "Alice" "teacher").2
        1 "alice" "Abc12345!").1 = .accountInactive := by decide

theorem create_then_authenticate_roundtrip_witness :
    (create_user [] 0 "alice" "Abc12345!" "a@x.com" "Alice" "teacher").1
        = (true, "User created successfully.") ∧
    (authenticate_user (create_user [] 0 "alice" "Abc12345!" "a@x.com" "Alice" "teacher").2
        1 "alice" (some "Abc12345!")).1 = .profile "alice" "teacher" "Alice" "a@x.com" :=
  create_then_authenticate_roundtrip 0 1 "alice" "Abc12345!" "a@x.com" "Alice"
    (by decide) (by decide) (by decide)

/-! ## Claim C6: change_password requires the current password -/

/-- Claim C6 counterexample: with an absent (`None`) current password — which matches
no stored hash — `change_password` nevertheless succeeds and overwrites the
stored hash, because `authenticate_user` treats a `None` password as a
session-cookie check and returns success without any credential comparison. -/
theorem change_password_none_counterexample :
    (change_password [c6user] 0 "carol" none "NewPass1!").1
        = (true, "Password updated successfully") ∧
    findUser (change_password [c6user] 0 "carol" none "NewPass1!").2 "carol"
      = some { c6user with password := generate_password_hash "NewPass1!",
                           last_modified := some 0 } := by decide

/-- Claim C6 amended: for every stored user and every *string* current password that
does not match the stored hash, `change_password` fails with the
current-password error and the stored hash is unchanged; the absent/`None`
current password bypasses the credential check entirely. -/
theorem change_password_requires_current_amended
    (users : List UserRec) (now : Nat) (uname cur newpw : String) (u : UserRec)
    (hfind : findUser users uname = some u)
    (hmismatch : check_password_hash u.password cur = false) :
    (change_password users now uname (some cur) newpw).1
        = (false, "Current password is incorrect") ∧
    (findUser (change_password users now uname (some cur) newpw).2 uname).map
        (fun v => v.password) = some u.password := by
  have hauth : ((authenticate_user users now uname (some cur)).1).isSuccess = false := by
    unfold authenticate_user
    rw [hfind]
    by_cases hlock : lockoutActive now u = true
    · simp [hlock, AuthOutcome.isSuccess]
    · have hlock' : lockoutActive now u = false := Bool.eq_false_iff.mpr hlock
      simp only [hlock', Bool.false_eq_true, if_false]
      by_cases hst : (u.status != "active") = true
      · simp [hst, AuthOutcome.isSuccess]
      · have hst' : (u.status != "active") = false := Bool.eq_false_iff.mpr hst
        simp only [hst', Bool.false_eq_true, if_false, hmismatch]
        cases hdec : decide (MAX_LOGIN_ATTEMPTS ≤ u.failed_attempts + 1) with
        | true => simp [hdec, AuthOutcome.isSuccess]
        | false => simp [hdec, AuthOutcome.isSuccess]
  refine ⟨by simp [change_password, hauth], ?_⟩
  have h2 : (change_password users now uname (some cur) newpw).2
      = (authenticate_user users now uname (some cur)).2 := by
    simp [change_password, hauth]
  rw [h2]
  show ((authenticate_user users now uname (some cur)).2.find?
      (fun v => v.username == uname)).map (fun v => v.password) = some u.password
  rw [authenticate_user_preserves_password users now uname (some cur) uname]
  have hf : users.find? (fun v => v.username == uname) = some u := hfind
  rw [hf]
  rfl

theorem change_password_requires_current_amended_witness :
    (change_password [c6user] 0 "carol" (some "WrongGuess") "NewPass1!").1
        = (false, "Current password is incorrect") ∧
    (findUser (change_password [c6user] 0 "carol" (some "WrongGuess") "NewPass1!").2
        "carol").map (fun v => v.password) = some c6user.password :=
  change_password_requires_current_amended [c6user] 0 "carol" "WrongGuess"
    "NewPass1!" c6user (by decide) (by decide)

/-! ## Claim C3: authentication lockout state machine -/

/-- Claim C3, Mongo mode: against a found account, (1) a wrong password while
the incremented counter stays below 5 returns `InvalidPassword` and stores the
incremented counter; (2) the wrong password that brings the counter to 5 sets
`is_locked`, stores `lockout_until = now + 30` minutes and returns
`AccountLocked`; (3) while `lockout_until` lies in the future every call — any
password, even the correct one or none — returns `AccountLocked` and leaves the
store unchanged; (4) once `lockout_until` has passed, a call clears the lock
and resets the counter to 0 as a side effect; (5) a correct-password call after
expiry succeeds with the cleared, reset record.  (The file backend breaks
part 3; see `authenticate_lockout_file_divergence`.) -/
theorem authenticate_lockout_machine
    (users : List UserRec) (now : Nat) (uname : String) (u : UserRec)
    (hfind : findUser users uname = some u) :
    (u.is_locked = false → u.status = "active" →
      ∀ pw, check_password_hash u.password pw = false →
      u.failed_attempts + 1 < MAX_LOGIN_ATTEMPTS →
      (authenticate_user users now uname (some pw)).1 = .invalidPassword ∧
      findUser (authenticate_user users now uname (some pw)).2 uname
        = some { u with failed_attempts := u.failed_attempts + 1,
                        is_locked := false, lockout_until := none }) ∧
    (u.is_locked = false → u.status = "active" →
      ∀ pw, check_password_hash u.password pw = false →
      u.failed_attempts + 1 = MAX_LOGIN_ATTEMPTS →
      (authenticate_user users now uname (some pw)).1
        = .accountLocked (some (now + LOCKOUT_DURATION)) ∧
      findUser (authenticate_user users now uname (some pw)).2 uname
        = some { u with failed_attempts := u.failed_attempts + 1,
                        is_locked := true,
                        lockout_until := some (now + LOCKOUT_DURATION) }) ∧
    (∀ t, u.is_locked = true → u.lockout_until = some t → now < t →
      ∀ pw : Option String,
        (authenticate_user users now uname pw).1 = .accountLocked (some t) ∧
        (authenticate_user users now uname pw).2 = users) ∧
    (∀ t, u.is_locked = true → u.lockout_until = some t → t ≤ now →
      u.status = "active" →
      (authenticate_user users now uname none).1
        = .profile uname u.role u.name u.email ∧
      findUser (authenticate_user users now uname none).2 uname
        = some { u with failed_attempts := 0, is_locked := false,
                        lockout_until := none }) ∧
    (∀ t pw, u.is_locked = true → u.lockout_until = some t → t ≤ now →
      u.status = "active" → check_password_hash u.password pw = true →
      (authenticate_user users now uname (some pw)).1
        = .profile uname u.role u.name u.email ∧
      findUser (authenticate_user users now uname (some pw)).2 uname
        = some { u with last_login := some now, failed_attempts := 0,
                        is_locked := false, lockout_until := none }) := by
  have hfind' : users.find? (fun v => v.username == uname) = some u := hfind
  have hbeq : (u.username == uname) = true := by
    have h := List.find?_some hfind'
    simpa using h
  refine ⟨?_, ?_, ?_, ?_, ?_⟩
  · intro hl hst pw hck hlt
    have hla : lockoutActive now u = false := by simp [lockoutActive, hl]
    have hdec : decide (MAX_LOGIN_ATTEMPTS ≤ u.failed_attempts + 1) = false :=
      decide_eq_false (Nat.not_le.mpr hlt)
    have ha : authenticate_user users now uname (some pw)
        = (.invalidPassword,
           updateFirst (fun v => v.username == uname)
             (loginFailureUpdate (u.failed_attempts + 1) false none) users) := by
      unfold authenticate_user
      rw [hfind]
      simp [hla, hl, hst, hck, hdec, loginFailureUpdate]
    refine ⟨by rw [ha], ?_⟩
    rw [ha]
    show (updateFirst (fun v => v.username == uname)
        (loginFailureUpdate (u.failed_attempts + 1) false none) users).find?
          (fun v => v.username == uname) = _
    rw [find?_updateFirst_same (fun v => v.username == uname)
      (loginFailureUpdate (u.failed_attempts + 1) false none) users u hfind'
      (by simpa [loginFailureUpdate] using hbeq)]
    rfl
  · intro hl hst pw hck heq
    have hla : lockoutActive now u = false := by simp [lockoutActive, hl]
    have hdec : decide (MAX_LOGIN_ATTEMPTS ≤ u.failed_attempts + 1) = true :=
      decide_eq_true (heq ▸ Nat.le_refl _)
    have ha : authenticate_user users now uname (some pw)
        = (.accountLocked (some (now + LOCKOUT_DURATION)),
           updateFirst (fun v => v.username == uname)
             (loginFailureUpdate (u.failed_attempts + 1) true
               (some (now + LOCKOUT_DURATION))) users) := by
      unfold authenticate_user
      rw [hfind]
      simp [hla, hl, hst, hck, hdec, loginFailureUpdate]
    refine ⟨by rw [ha], ?_⟩
    rw [ha]
    show (updateFirst (fun v => v.username == uname)
        (loginFailureUpdate (u.failed_attempts + 1) true
          (some (now + LOCKOUT_DURATION))) users).find?
          (fun v => v.username == uname) = _
    rw [find?_updateFirst_same (fun v => v.username == uname)
      (loginFailureUpdate (u.failed_attempts + 1) true
        (some (now + LOCKOUT_DURATION))) users u hfind'
      (by simpa [loginFailureUpdate] using hbeq)]
    rfl
  · intro t hl ht hnow pw
    have hla : lockoutActive now u = true := by simp [lockoutActive, hl, ht, hnow]
    have ha : authenticate_user users now uname pw
        = (.accountLocked u.lockout_until, users) := by
      unfold authenticate_user
      rw [hfind]
      simp [hla]
    rw [ha, ht]
    exact ⟨rfl, rfl⟩
  · intro t hl ht hnow hst
    have hla : lockoutActive now u = false := by
      simp [lockoutActive, hl, ht, Nat.not_lt.mpr hnow]
    have ha : authenticate_user users now uname none
        = (.profile uname u.role u.name u.email,
           updateFirst (fun v => v.username == uname) clearLockUpdate users) := by
      unfold authenticate_user
      rw [hfind]
      simp [hla, hl, hst]
    refine ⟨by rw [ha], ?_⟩
    rw [ha]
    show (updateFirst (fun v => v.username == uname) clearLockUpdate users).find?
        (fun v => v.username == uname) = _
    rw [find?_updateFirst_same (fun v => v.username == uname) clearLockUpdate
      users u hfind' (by simpa [clearLockUpdate] using hbeq)]
    rfl
  · intro t pw hl ht hnow hst hck
    have hla : lockoutActive now u = false := by
      simp [lockoutActive, hl, ht, Nat.not_lt.mpr hnow]
    have hfind1 : (updateFirst (fun v => v.username == uname) clearLockUpdate
        users).find? (fun v => v.username == uname) = some (clearLockUpdate u) :=
      find?_updateFirst_same (fun v => v.username == uname) clearLockUpdate
        users u hfind' (by simpa [clearLockUpdate] using hbeq)
    have ha : authenticate_user users now uname (some pw)
        = (.profile uname u.role u.name u.email,
           updateFirst (fun v => v.username == uname) (loginSuccessUpdate now)
             (updateFirst (fun v => v.username == uname) clearLockUpdate users)) := by
      unfold authenticate_user
      rw [hfind]
      simp [hla, hl, hst, hck]
    refine ⟨by rw [ha], ?_⟩
    rw [ha]
    show (updateFirst (fun v => v.username == uname) (loginSuccessUpdate now)
        (updateFirst (fun v => v.username == uname) clearLockUpdate users)).find?
          (fun v => v.username == uname) = _
    rw [find?_updateFirst_same (fun v => v.username == uname)
      (loginSuccessUpdate now) _ (clearLockUpdate u) hfind1
      (by simpa [loginSuccessUpdate, clearLockUpdate] using hbeq)]
    rfl

theorem authenticate_lockout_machine_witness :
    (authenticate_user [c3user] 100 "dave" (some "Bad12345!")).1
      = .accountLocked (some (100 + LOCKOUT_DURATION)) ∧
    findUser (authenticate_user [c3user] 100 "dave" (some "Bad12345!")).2 "dave"
      = some { c3user with failed_attempts := c3user.failed_attempts + 1,
                           is_locked := true,
                           lockout_until := some (100 + LOCKOUT_DURATION) } :=
  (authenticate_lockout_machine [c3user] 100 "dave" c3user (by decide)).2.1
    (by decide) (by decide) "Bad12345!" (by decide) (by decide)

/-- Against the file backend, *any* account whose `lockout_until` does not fall
on a strictly later calendar day than the current one reads as stale: the lock
is cleared and a correct-password call succeeds even while `lockout_until` is
still in the future. -/
theorem authenticate_user_file_lockout_bypass
    (users : List UserRec) (now : Nat) (uname : String) (u : UserRec) (t : Nat)
    (hfind : findUser users uname = some u)
    (hl : u.is_locked = true) (ht : u.lockout_until = some t)
    (hday : dayOf t ≤ dayOf now) (hst : u.status = "active")
    (pw : String) (hck : check_password_hash u.password pw = true) :
    (authenticate_user_file users now uname (some pw)).1
      = .profile uname u.role u.name u.email := by
  have hla : lockoutActiveFile now u = false := by
    simp [lockoutActiveFile, hl, ht, Nat.not_lt.mpr hday]
  unfold authenticate_user_file
  rw [hfind]
  simp [hla, hl, hst, hck]

/-- Claim C3 code-bug exhibit: an account locked at minute 100 until minute 130
(same calendar day, lockout still 20 minutes in the future at minute 110).  The
Mongo backend rejects the correct-password call with `AccountLocked` as the
claim demands; the file backend — comparing the `str()`-serialized
`lockout_until` against `isoformat(now)` — treats the lock as stale, clears it,
resets the counter, and lets the very same call succeed. -/
theorem authenticate_lockout_file_divergence :
    dayOf 130 = dayOf 110 ∧ 110 < 130 ∧
    (authenticate_user [c3lockedUser] 110 "erin" (some "Abc12345!")).1
        = .accountLocked (some 130) ∧
    (authenticate_user_file [c3lockedUser] 110 "erin" (some "Abc12345!")).1
        = .profile "erin" "teacher" "Erin" "e@x.com" ∧
    findUser (authenticate_user_file [c3lockedUser] 110 "erin" (some "Abc12345!")).2 "erin"
        = some { c3lockedUser with last_login := some 110, failed_attempts := 0,
                                   is_locked := false, lockout_until := none } := by
  decide

theorem authenticate_user_file_lockout_bypass_witness :
    (authenticate_user_file [c3lockedUser] 110 "erin" (some "Abc12345!")).1
      = .profile "erin" "teacher" "Erin" "e@x.com" :=
  authenticate_user_file_lockout_bypass [c3lockedUser] 110 "erin" c3lockedUser
    130 (by decide) (by decide) (by decide) (by decide) (by decide)
    "Abc12345!" (by decide)

end StudentApp
